import Mathlib

/-!
Verification development for the DeepGuard frontend repository.

The definitions below are shallow embeddings of the request/retry/cancellation
pipeline in `src/services/api.ts`, the analysis-session hook and the calibration
config hook in `src/hooks/useApi.ts`, and the uncertainty-band display in
`src/components/AudioCalibration.js`.  The score-to-verdict interpreter is not
part of the frontend sources (the verdict is computed server-side); it is
modelled from the specification where a claim needs it, and marked as such.
-/

set_option autoImplicit false

namespace DeepGuard

/-! ## Request Client error handling (`src/services/api.ts`, lines 17-95)

`ApiService` keeps `retryAttempts : Map<string, number>` keyed by request url.
We embed the map as an association list: `lookupRetry` is `map.get(url) || 0`,
`setRetry` is `map.set(url, n)`, `eraseRetry` is `map.delete(url)`. -/

abbrev RetryMap := List (String × Nat)

def lookupRetry (m : RetryMap) (url : String) : Nat :=
  match m.find? (fun p => p.1 == url) with
  | some p => p.2
  | none => 0

def setRetry (m : RetryMap) (url : String) (n : Nat) : RetryMap :=
  (url, n) :: m.filter (fun p => p.1 != url)

def eraseRetry (m : RetryMap) (url : String) : RetryMap :=
  m.filter (fun p => p.1 != url)

/-- The `MAX_RETRIES` constant of `api.ts` line 15. -/
def MAX_RETRIES : Nat := 3

/-- The shape of an axios error as far as `handleResponseError` inspects it:
`error.code`, `error.response?.status` (`none` = no response at all),
whether `error.config` is present, and `error.config.url`. -/
structure AxiosErrorModel where
  code : Option String
  responseStatus : Option Nat
  hasConfig : Bool
  url : String
deriving DecidableEq

/-- `shouldRetry` from `api.ts` lines 92-95:
`!error.response || (error.response.status >= 500 && error.response.status < 600)`. -/
def shouldRetry (e : AxiosErrorModel) : Bool :=
  match e.responseStatus with
  | none => true
  | some s => 500 ≤ s && s < 600

/-- The externally observable outcome of one run of `handleResponseError`:
which exception is thrown, or a retry of the same request after a delay. -/
inductive ErrorAction where
  | throwTimeout
  | throwConnectivity
  | retryAfter (delayMs : Nat)
  | throwFormatted
deriving DecidableEq

def isRetry : ErrorAction → Bool
  | .retryAfter _ => true
  | _ => false

/-- `handleResponseError` from `api.ts` lines 58-90, as a function from the
current retry map and the error to the action taken and the updated map.
The branches appear in source order: `ECONNABORTED` throws the timeout
message; `ECONNREFUSED`/`ENOTFOUND` throw the fixed connectivity message;
then the retry branch; otherwise the formatted error is thrown. -/
def handleResponseError (m : RetryMap) (e : AxiosErrorModel) : ErrorAction × RetryMap :=
  if e.code = some "ECONNABORTED" then
    (.throwTimeout, m)
  else if e.code = some "ECONNREFUSED" ∨ e.code = some "ENOTFOUND" then
    (.throwConnectivity, m)
  else if e.hasConfig && shouldRetry e then
    let currentRetries := lookupRetry m e.url
    if currentRetries < MAX_RETRIES then
      (.retryAfter (2 ^ currentRetries * 1000), setRetry m e.url (currentRetries + 1))
    else
      (.throwFormatted, m)
  else
    (.throwFormatted, m)

/-- The success branch of the response interceptor (`api.ts` lines 44-51):
on a successful response the retry count for that url is deleted. -/
def onSuccess (m : RetryMap) (url : String) : RetryMap :=
  eraseRetry m url

/-- A 5xx response from the backend on the `/detect` path: a response is
present (status 503), no transport error code, config present. -/
def server503 : AxiosErrorModel :=
  { code := none, responseStatus := some 503, hasConfig := true, url := "/detect" }

/-- A connection-refused transport failure on the `/health` path: axios sets
`code = ECONNREFUSED` and there is no response object at all. -/
def connRefused : AxiosErrorModel :=
  { code := some "ECONNREFUSED", responseStatus := none, hasConfig := true, url := "/health" }

/-- A 404 client-error response on the `/detect` path. -/
def client404 : AxiosErrorModel :=
  { code := none, responseStatus := some 404, hasConfig := true, url := "/detect" }

/-- Aggregate result of driving the client against a backend until a terminal
throw: number of attempts issued, backoff delays slept (ms, in order),
the terminal action, and the final retry map. -/
structure RunResult where
  attempts : Nat
  delays : List Nat
  terminal : ErrorAction
  map : RetryMap
deriving DecidableEq

/-- Driving the request loop against a backend that always answers 503:
each attempt fails with `server503`; `handleResponseError` either schedules
a retry (we count the next attempt and record the delay) or throws.
`fuel` bounds the recursion; with the map starting anywhere the loop stops
after at most `MAX_RETRIES + 1` attempts, so any `fuel ≥ 4` is enough. -/
def runAlways503 : Nat → RetryMap → RunResult
  | 0, m => ⟨1, [], .throwFormatted, m⟩
  | fuel + 1, m =>
    match handleResponseError m server503 with
    | (.retryAfter d, m2) =>
      let r := runAlways503 fuel m2
      ⟨r.attempts + 1, d :: r.delays, r.terminal, r.map⟩
    | (a, m2) => ⟨1, [], a, m2⟩

/-! ## Upload progress (`src/services/api.ts`, lines 191-199)

The `onUploadProgress` handler reports
`percentage = Math.round((progressEvent.loaded * 100) / progressEvent.total)`
whenever `progressEvent.total` is nonzero.  For a nonnegative argument
`Math.round x = floor (x + 1/2)`; over the exact rational value
`(loaded * 100) / total` this is `(200 * loaded + total) / (2 * total)`
in natural-number division.  (The double-precision evaluation in the
browser cannot cross a half-integer boundary here: the true value is a
rational with denominator `total`, so its distance to a half-integer is
either 0 — and half-integers of this size are exact doubles — or at least
`1 / (2 * total)`, far above one ulp of a value bounded by 100.) -/

def uploadPercentage (loaded total : Nat) : Nat :=
  (200 * loaded + total) / (2 * total)

/-! ## File validation (`src/services/api.ts`, lines 219-252)

`validateFile` fetches the supported-formats list and then checks the file
name and size.  JavaScript strings are embedded as `List Char`; `splitOnDot`
is `name.split('.')` for the one-character separator `'.'`, and the
extension computed by the source is `'.' + name.split('.').pop()?.toLowerCase()`.
The formats fetch is the HTTP collaborator: we embed the pure checking logic
given the fetched lists, and the fetch-failure branch as `unableToValidate`. -/

abbrev JsString := List Char

/-- JavaScript `String.prototype.split` with the single-character separator
`'.'`: splits at every occurrence, keeping empty segments, and maps the
empty string to `[""]`. -/
def splitOnDot : JsString → List JsString
  | [] => [[]]
  | c :: cs =>
    match splitOnDot cs with
    | s :: ss => if c = '.' then [] :: s :: ss else (c :: s) :: ss
    | [] => [[]]

/-- `'.' + file.name.split('.').pop()?.toLowerCase()` from `api.ts` line 222.
`pop()` takes the last segment; `splitOnDot` never returns `[]`, so the
default of `getLastD` is never used. -/
def extOf (name : JsString) : JsString :=
  '.' :: ((splitOnDot name).getLastD []).map Char.toLower

/-- The `/supported-formats` payload: lists of dot-prefixed extensions. -/
structure SupportedFormats where
  audio : List JsString
  image : List JsString
deriving DecidableEq

/-- The two fields of a `File` that `validateFile` inspects. -/
structure SFile where
  name : JsString
  size : Nat
deriving DecidableEq

/-- Outcome of `validateFile`: `ok`, or `{valid:false}` with the reason the
source builds its error string from — the unsupported extension, the
oversize in bytes, or the formats fetch having failed. -/
inductive ValidationResult where
  | ok
  | unsupportedFormat (ext : JsString)
  | tooLarge (size : Nat)
  | unableToValidate
deriving DecidableEq

/-- The 100 MB limit of `api.ts` line 237: `100 * 1024 * 1024`. -/
def maxFileSize : Nat := 100 * 1024 * 1024

/-- The checking logic of `validateFile` (`api.ts` lines 221-245), given the
fetched formats: extension membership in `formats.audio ++ formats.image`
is tested first, then the size limit. -/
def validateFile (file : SFile) (formats : SupportedFormats) : ValidationResult :=
  let fileExtension := extOf file.name
  let allSupportedExtensions := formats.audio ++ formats.image
  if ¬ allSupportedExtensions.contains fileExtension then
    .unsupportedFormat fileExtension
  else if file.size > maxFileSize then
    .tooLarge file.size
  else
    .ok

/-! ## Calibration configuration (`src/types/api.ts`, `src/hooks/useApi.ts` 199-248)

`AudioCalibrationConfig` keeps the source's snake_case field names; thresholds
and ranges are embedded as rationals.  The persisted copy lives under one
localStorage key; the store is embedded as `Option AudioCalibrationConfig`
(JSON serialize/parse of this flat record is the identity, and an unreadable
or malformed stored value is the same as an absent one via the catch branch). -/

structure AudioCalibrationConfig where
  flip_output_interpretation : Bool
  threshold : ℚ
  uncertainty_range : ℚ
deriving DecidableEq

/-- The default config of `useAudioCalibration` (`useApi.ts` lines 204-208). -/
def defaultAudioConfig : AudioCalibrationConfig :=
  { flip_output_interpretation := false, threshold := 1/2, uncertainty_range := 1/10 }

/-- A `Partial<AudioCalibrationConfig>` update: each field optionally present. -/
structure ConfigUpdate where
  flip_output_interpretation : Option Bool := none
  threshold : Option ℚ := none
  uncertainty_range : Option ℚ := none
deriving DecidableEq

/-- The spread `{ ...config, ...newConfig }` of `useApi.ts` line 219:
fields present in the update win, absent fields keep their current value. -/
def mergeConfig (config : AudioCalibrationConfig) (u : ConfigUpdate) : AudioCalibrationConfig :=
  { flip_output_interpretation := u.flip_output_interpretation.getD config.flip_output_interpretation,
    threshold := u.threshold.getD config.threshold,
    uncertainty_range := u.uncertainty_range.getD config.uncertainty_range }

/-- The persisted copy under the `deepguard_audio_calibration` key. -/
abbrev ConfigStore := Option AudioCalibrationConfig

/-- Initialization of `useAudioCalibration` (`useApi.ts` lines 200-216):
the saved value if present and parsable, else the defaults. -/
def loadConfig (store : ConfigStore) : AudioCalibrationConfig :=
  store.getD defaultAudioConfig

/-- `setConfig` (`useApi.ts` lines 218-228): merge over the in-memory config,
adopt the merged value, persist it.  The previous store content is not read. -/
def setConfig (config : AudioCalibrationConfig) (u : ConfigUpdate) :
    AudioCalibrationConfig × ConfigStore :=
  let updatedConfig := mergeConfig config u
  (updatedConfig, some updatedConfig)

/-- `resetConfig` (`useApi.ts` lines 230-242): defaults in memory, key removed. -/
def resetConfig : AudioCalibrationConfig × ConfigStore :=
  (defaultAudioConfig, none)

/-! ## Verdict interpretation and the uncertainty band

The score-to-verdict computation itself is not in the frontend sources — the
backend returns `detection_result` ready-made — so `interpret` below is
modelled from the specification.  The uncertainty band that *is* computed in
the frontend is the display in `src/components/AudioCalibration.js` line 198:
`[0.5 - (config.uncertainty_range || 0.1) / 2, 0.5 + (config.uncertainty_range || 0.1) / 2]`,
embedded as `currentRange` (the JS `|| 0.1` treats the falsy value 0 like an
absent field). -/

inductive Verdict where
  | real
  | fake
  | uncertain
deriving DecidableEq

/-- Modelled from the spec: the Verdict Interpreter of §4.4 is missing from
the sources under `src/` (the verdict is computed by the backend); this
follows the spec's words: effective fake-probability flips the raw score
when configured, the uncertainty band is the closed interval of width
`uncertainty_range` centred at the threshold clipped to `[0,1]`, the band
test comes first, then the threshold comparison. -/
def interpret (s : ℚ) (config : AudioCalibrationConfig) : Verdict :=
  let pFake := if config.flip_output_interpretation then 1 - s else s
  let lo := max 0 (config.threshold - config.uncertainty_range / 2)
  let hi := min 1 (config.threshold + config.uncertainty_range / 2)
  if lo ≤ pFake ∧ pFake ≤ hi then .uncertain
  else if pFake ≥ config.threshold then .fake
  else .real

/-- The uncertainty band shown by `AudioCalibration.js` line 198 (and the
`±` badge of line 166): `0.5 ± (config.uncertainty_range || 0.1) / 2`.
The centre is the literal `0.5`; `config.threshold` is not consulted. -/
def currentRange (config : AudioCalibrationConfig) : ℚ × ℚ :=
  let r := if config.uncertainty_range = 0 then 1/10 else config.uncertainty_range
  (1/2 - r / 2, 1/2 + r / 2)

/-! ## The file-analysis hook (`src/hooks/useApi.ts`, lines 56-169)

`useFileAnalysis` keeps a `FileAnalysisState` plus `abortControllerRef`.
We embed abort controllers by numeric id: `nextCtrl` numbers the controllers
created so far, `aborted` records every id whose `abort()` was called, and
`live` records the ids whose `detectDeepfake` call has been issued and has
not yet settled.  Files and detection responses are identified by `Nat`. -/

structure SessionState where
  isAnalyzing : Bool
  progress : Nat
  error : Option String
  result : Option Nat
  uploadedFile : Option Nat
deriving DecidableEq

structure HookState where
  st : SessionState
  abortCtrl : Option Nat
  nextCtrl : Nat
  aborted : List Nat
  live : List Nat
deriving DecidableEq

/-- The initial `useState` value (`useApi.ts` lines 58-64) with a null ref. -/
def initialHook : HookState :=
  { st := { isAnalyzing := false, progress := 0, error := none, result := none,
            uploadedFile := none },
    abortCtrl := none, nextCtrl := 0, aborted := [], live := [] }

/-- The synchronous prefix of `analyzeFile` on the validation-success path
(`useApi.ts` lines 84-106): reset the state to analyzing, create a fresh
abort controller, overwrite the ref with it, and issue `detectDeepfake`
with its signal.  The previous controller, if any, is not touched. -/
def analyzeStart (h : HookState) (file : Nat) : HookState :=
  { st := { isAnalyzing := true, progress := 0, error := none, result := none,
            uploadedFile := some file },
    abortCtrl := some h.nextCtrl,
    nextCtrl := h.nextCtrl + 1,
    aborted := h.aborted,
    live := h.nextCtrl :: h.live }

/-- The validation-failure path of `analyzeFile` (`useApi.ts` lines 75-82):
only `error` and `isAnalyzing` change; no request is issued. -/
def analyzeValidationFail (h : HookState) (msg : String) : HookState :=
  { h with st := { h.st with error := some msg, isAnalyzing := false } }

/-- Resolution of the `detectDeepfake` promise issued with controller `ctrl`
(`useApi.ts` lines 108-115): the request is no longer live and the success
`setState` runs — unconditionally, whether or not `ctrl` is still the
current controller, because the closure captures only `setState`. -/
def requestSucceed (h : HookState) (ctrl response : Nat) : HookState :=
  { h with live := h.live.erase ctrl,
           st := { h.st with isAnalyzing := false, progress := 100,
                             result := some response } }

/-- `cancelAnalysis` (`useApi.ts` lines 128-137): guarded only by the ref
being non-null; aborts the referenced controller and sets the fixed message. -/
def cancelAnalysis (h : HookState) : HookState :=
  match h.abortCtrl with
  | none => h
  | some c =>
    { h with aborted := c :: h.aborted,
             st := { h.st with isAnalyzing := false,
                               error := some "Analysis cancelled by user" } }

/-- `resetAnalysis` (`useApi.ts` lines 139-151): fresh state, abort the
current controller if any, null the ref. -/
def resetAnalysis (h : HookState) : HookState :=
  { st := { isAnalyzing := false, progress := 0, error := none, result := none,
            uploadedFile := none },
    abortCtrl := none,
    nextCtrl := h.nextCtrl,
    aborted := match h.abortCtrl with | none => h.aborted | some c => c :: h.aborted,
    live := h.live }

/-- A supported-formats list accepting only `.wav` audio files. -/
def wavFormats : SupportedFormats :=
  { audio := [['.', 'w', 'a', 'v']], image := [] }

/-! ## Helper lemmas -/

theorem splitOnDot_ne_nil (l : JsString) : splitOnDot l ≠ [] := by
  cases l with
  | nil => simp [splitOnDot]
  | cons c cs =>
    unfold splitOnDot
    cases splitOnDot cs with
    | nil => simp
    | cons s ss => by_cases h : c = '.' <;> simp [h]

theorem splitOnDot_of_no_dot (l : JsString) (h : '.' ∉ l) : splitOnDot l = [l] := by
  induction l with
  | nil => rfl
  | cons c cs ih =>
    have hc : c ≠ '.' := fun hh => h (hh ▸ List.mem_cons_self c cs)
    have hcs : '.' ∉ cs := fun hh => h (List.mem_cons_of_mem c hh)
    unfold splitOnDot
    rw [ih hcs]
    simp [hc]

theorem two_le_length_splitOnDot (l : JsString) (h : '.' ∈ l) :
    2 ≤ (splitOnDot l).length := by
  induction l with
  | nil => simp at h
  | cons c cs ih =>
    unfold splitOnDot
    by_cases hc : c = '.'
    · cases hs : splitOnDot cs with
      | nil => exact absurd hs (splitOnDot_ne_nil cs)
      | cons s ss => simp [hc]
    · have hmem : '.' ∈ cs := by
        rcases List.mem_cons.mp h with h1 | h2
        · exact absurd h1.symm hc
        · exact h2
      cases hs : splitOnDot cs with
      | nil => exact absurd hs (splitOnDot_ne_nil cs)
      | cons s ss =>
        have := ih hmem
        rw [hs] at this
        simp [hc]
        simpa using this

theorem splitOnDot_cons (c : Char) (cs : JsString) :
    splitOnDot (c :: cs) =
      match splitOnDot cs with
      | s :: ss => if c = '.' then [] :: s :: ss else (c :: s) :: ss
      | [] => [[]] := rfl

theorem getLastD_splitOnDot_append (xs ys : JsString) :
    (splitOnDot (xs ++ '.' :: ys)).getLastD [] = (splitOnDot ys).getLastD [] := by
  induction xs with
  | nil =>
    rw [List.nil_append, splitOnDot_cons]
    cases hs : splitOnDot ys with
    | nil => exact absurd hs (splitOnDot_ne_nil ys)
    | cons s ss => simp [List.getLastD_cons]
  | cons c xs2 ih =>
    rw [List.cons_append, splitOnDot_cons]
    have hmem : '.' ∈ xs2 ++ '.' :: ys := by simp
    have hlen := two_le_length_splitOnDot _ hmem
    cases hs : splitOnDot (xs2 ++ '.' :: ys) with
    | nil => exact absurd hs (splitOnDot_ne_nil _)
    | cons s ss =>
      rw [hs] at ih hlen
      cases ss with
      | nil => simp at hlen
      | cons s2 ss2 =>
        rw [← ih]
        by_cases hc : c = '.' <;> simp [hc, List.getLastD_cons]

theorem extOf_no_dot (name : JsString) (h : '.' ∉ name) :
    extOf name = '.' :: name.map Char.toLower := by
  unfold extOf
  rw [splitOnDot_of_no_dot name h]
  rfl

theorem extOf_after_final_dot (pre post : JsString) (h : '.' ∉ post) :
    extOf (pre ++ '.' :: post) = '.' :: post.map Char.toLower := by
  unfold extOf
  rw [getLastD_splitOnDot_append, splitOnDot_of_no_dot post h]
  rfl

theorem lookupRetry_setRetry (m : RetryMap) (url : String) (n : Nat) :
    lookupRetry (setRetry m url n) url = n := by
  simp [lookupRetry, setRetry, List.find?]

theorem lookupRetry_le_handleResponseError (m : RetryMap) (e : AxiosErrorModel) :
    lookupRetry m e.url ≤ lookupRetry (handleResponseError m e).2 e.url := by
  simp only [handleResponseError]
  split_ifs with h1 h2 h3 h4
  · exact le_refl _
  · exact le_refl _
  · rw [lookupRetry_setRetry]; omega
  · exact le_refl _
  · exact le_refl _

/-! ## Claim theorems -/

/-- Claim C1, counterexample: `analyze` called while a previous analysis is in
flight does not cancel the previous request.  After two back-to-back
`analyzeStart`s, both controller ids 0 and 1 are live, nothing was aborted,
and a later resolution of the first request (id 0) still delivers its
response into the session state. -/
theorem c1_counterexample :
    (analyzeStart (analyzeStart initialHook 1) 2).live = [1, 0]
    ∧ (analyzeStart (analyzeStart initialHook 1) 2).aborted = []
    ∧ (analyzeStart (analyzeStart initialHook 1) 2).abortCtrl = some 1
    ∧ (requestSucceed (analyzeStart (analyzeStart initialHook 1) 2) 0 99).st.result
        = some 99 := by
  decide

/-- Claim C1, amended: calling `analyze` while a previous request is in flight
does not abort it — the controller reference is overwritten without an
`abort()` call, both requests stay live, and whichever request resolves can
still write its `DetectionResponse` into the session state. -/
theorem c1_analyze_replaces_without_abort :
    ∀ (h : HookState) (f1 f2 r : Nat),
      (analyzeStart (analyzeStart h f1) f2).aborted = h.aborted
      ∧ (analyzeStart (analyzeStart h f1) f2).live = (h.nextCtrl + 1) :: h.nextCtrl :: h.live
      ∧ (analyzeStart (analyzeStart h f1) f2).abortCtrl = some (h.nextCtrl + 1)
      ∧ (requestSucceed (analyzeStart (analyzeStart h f1) f2) h.nextCtrl r).st.result
          = some r :=
  fun _ _ _ _ => ⟨rfl, rfl, rfl, rfl⟩

/-- Claim C2, counterexample: a connection-refused connectivity failure has no
response at all — so the retry predicate holds and retries remain — yet
`handleResponseError` performs no retry: it throws the fixed connectivity
message immediately. -/
theorem c2_counterexample :
    connRefused.responseStatus = none
    ∧ shouldRetry connRefused = true
    ∧ lookupRetry [] connRefused.url < MAX_RETRIES
    ∧ handleResponseError [] connRefused = (.throwConnectivity, [])
    ∧ isRetry (handleResponseError [] connRefused).1 = false := by
  decide

/-- Claim C2, amended: a retry is attempted iff the error code is none of
`ECONNABORTED`/`ECONNREFUSED`/`ENOTFOUND`, a request config is present, the
predicate (no response at all, or 5xx status) holds, and the per-path counter
is below `MAX_RETRIES`; a 4xx response is never retried; a connectivity
failure carrying `ECONNREFUSED` or `ENOTFOUND` is surfaced immediately with
the fixed actionable message, without any retry. -/
theorem c2_retry_predicate :
    (∀ (m : RetryMap) (e : AxiosErrorModel),
      isRetry (handleResponseError m e).1 = true ↔
        (e.code ≠ some "ECONNABORTED" ∧ e.code ≠ some "ECONNREFUSED"
          ∧ e.code ≠ some "ENOTFOUND" ∧ e.hasConfig = true ∧ shouldRetry e = true
          ∧ lookupRetry m e.url < MAX_RETRIES))
    ∧ (∀ (m : RetryMap) (e : AxiosErrorModel) (s : Nat),
        e.responseStatus = some s → 400 ≤ s → s < 500 →
        isRetry (handleResponseError m e).1 = false)
    ∧ (∀ (m : RetryMap) (e : AxiosErrorModel),
        e.code = some "ECONNREFUSED" ∨ e.code = some "ENOTFOUND" →
        (handleResponseError m e).1 = .throwConnectivity) := by
  have main : ∀ (m : RetryMap) (e : AxiosErrorModel),
      isRetry (handleResponseError m e).1 = true ↔
        (e.code ≠ some "ECONNABORTED" ∧ e.code ≠ some "ECONNREFUSED"
          ∧ e.code ≠ some "ENOTFOUND" ∧ e.hasConfig = true ∧ shouldRetry e = true
          ∧ lookupRetry m e.url < MAX_RETRIES) := by
    intro m e
    simp only [handleResponseError]
    split_ifs with h1 h2 h3 h4
    · simp [isRetry, h1]
    · simp only [isRetry, Bool.false_eq_true, false_iff]
      intro hcon
      rcases h2 with h2 | h2
      · exact hcon.2.1 h2
      · exact hcon.2.2.1 h2
    · simp only [isRetry, true_iff]
      rw [Bool.and_eq_true] at h3
      push_neg at h2
      exact ⟨h1, h2.1, h2.2, h3.1, h3.2, h4⟩
    · simp only [isRetry, Bool.false_eq_true, false_iff]
      intro hcon
      exact h4 hcon.2.2.2.2.2
    · simp only [isRetry, Bool.false_eq_true, false_iff]
      intro hcon
      exact h3 (Bool.and_eq_true _ _ |>.mpr ⟨hcon.2.2.2.1, hcon.2.2.2.2.1⟩)
  refine ⟨main, ?_, ?_⟩
  · intro m e s hs h4 h5
    cases hh : isRetry (handleResponseError m e).1 with
    | false => rfl
    | true =>
      have hsr := ((main m e).mp hh).2.2.2.2.1
      rw [shouldRetry, hs] at hsr
      rw [Bool.and_eq_true] at hsr
      have : 500 ≤ s := by simpa using hsr.1
      omega
  · intro m e h
    simp only [handleResponseError]
    have hne : ¬ e.code = some "ECONNABORTED" := by
      rcases h with h | h <;> rw [h] <;> simp
    rw [if_neg hne, if_pos h]

/-- Claim C2, witness: the amended theorem applied at a 404 response (never
retried) and at a connection-refused failure (fixed connectivity message). -/
theorem c2_retry_predicate_witness :
    isRetry (handleResponseError [] client404).1 = false
    ∧ (handleResponseError [] connRefused).1 = .throwConnectivity :=
  ⟨c2_retry_predicate.2.1 [] client404 404 rfl (by decide) (by decide),
   c2_retry_predicate.2.2 [] connRefused (Or.inl rfl)⟩

/-- Claim C3: against a backend that always answers with a 5xx status, a
fresh client (empty retry map) performs 4 attempts in total — the original
plus exactly 3 retries — with backoff delays of 1s, 2s and 4s before retry
attempts 1, 2 and 3, and then raises the terminal formatted error. -/
theorem c3_retry_ceiling :
    (runAlways503 10 []).attempts = 4
    ∧ (runAlways503 10 []).delays = [1000, 2000, 4000]
    ∧ (runAlways503 10 []).terminal = .throwFormatted := by
  decide

/-- Claim C4: the effective fake-probability of the (spec-modelled) verdict
interpretation is `1 - s` exactly when the flip flag is set — interpreting
`s` with the flag set coincides with interpreting `1 - s` without it — and
concretely a score of 0.8 at threshold 0.5 with zero uncertainty range is
`fake` un-flipped and `real` flipped. -/
theorem c4_flip_semantics :
    (∀ s t u : ℚ,
      interpret s { flip_output_interpretation := true, threshold := t, uncertainty_range := u }
        = interpret (1 - s)
            { flip_output_interpretation := false, threshold := t, uncertainty_range := u })
    ∧ interpret (8/10)
        { flip_output_interpretation := false, threshold := 1/2, uncertainty_range := 0 }
        = .fake
    ∧ interpret (8/10)
        { flip_output_interpretation := true, threshold := 1/2, uncertainty_range := 0 }
        = .real := by
  exact ⟨fun s t u => rfl, by norm_num [interpret], by norm_num [interpret]⟩

/-- Claim C5, counterexample: the uncertainty band computed by the frontend
(`AudioCalibration.js` line 198) is not centred at the configured threshold.
With threshold 0.65 and range 0.1 the claim's band would be [0.60, 0.70],
but the code computes [0.45, 0.55]. -/
theorem c5_counterexample :
    currentRange
        { flip_output_interpretation := false, threshold := 13/20, uncertainty_range := 1/10 }
      ≠ (13/20 - (1/10) / 2, 13/20 + (1/10) / 2) := by
  norm_num [currentRange]

/-- Claim C5, amended: for every calibration config the band computed in the
code is centred at the fixed midpoint 0.5 — the two bounds always sum to 1 —
namely `[0.5 - r/2, 0.5 + r/2]` with `r` the configured range (0 falling back
to the default 0.1), regardless of the configured threshold.  With threshold
0.5 and range 0.1 the band is [0.45, 0.55], membership is inclusive at both
endpoints, and a pFake inside the band yields `uncertain` before the
threshold comparison (0.54 ≥ 0.5 yet `uncertain`): 0.45-0.55 → `uncertain`,
0.44 → `real`, 0.56 → `fake`. -/
theorem c5_band_centred_at_half :
    (∀ config : AudioCalibrationConfig,
      (currentRange config).1 + (currentRange config).2 = 1)
    ∧ currentRange defaultAudioConfig = (9/20, 11/20)
    ∧ interpret (45/100) defaultAudioConfig = .uncertain
    ∧ interpret (46/100) defaultAudioConfig = .uncertain
    ∧ interpret (54/100) defaultAudioConfig = .uncertain
    ∧ interpret (55/100) defaultAudioConfig = .uncertain
    ∧ interpret (44/100) defaultAudioConfig = .real
    ∧ interpret (56/100) defaultAudioConfig = .fake := by
  refine ⟨?_, by norm_num [currentRange, defaultAudioConfig],
    by norm_num [interpret, defaultAudioConfig], by norm_num [interpret, defaultAudioConfig],
    by norm_num [interpret, defaultAudioConfig], by norm_num [interpret, defaultAudioConfig],
    by norm_num [interpret, defaultAudioConfig], by norm_num [interpret, defaultAudioConfig]⟩
  intro config
  unfold currentRange
  by_cases h : config.uncertainty_range = 0 <;> simp [h] <;> ring

/-- Claim C6, counterexample: the progress percentage is `Math.round`, not
`floor`: at 2 of 3 bytes the code reports 67 while `floor(2*100/3) = 66`. -/
theorem c6_counterexample :
    uploadPercentage 2 3 = 67 ∧ 2 * 100 / 3 = 66 := by
  decide

/-- Claim C6, amended: for loaded `l` and total `t > 0` the reported
percentage is `round(l*100/t)` — that is `floor(l*100/t + 1/2)` — the
reported sequence is monotone non-decreasing in the loaded byte count, and
the final event (loaded = total) reports exactly 100. -/
theorem c6_progress_rounding :
    (∀ loaded total : Nat, 0 < total →
      (uploadPercentage loaded total : ℤ) = ⌊(loaded * 100 : ℚ) / total + 1/2⌋)
    ∧ (∀ total l1 l2 : Nat, l1 ≤ l2 →
        uploadPercentage l1 total ≤ uploadPercentage l2 total)
    ∧ (∀ total : Nat, 0 < total → uploadPercentage total total = 100) := by
  refine ⟨?_, ?_, ?_⟩
  · intro l t ht
    have ht0 : (t : ℚ) ≠ 0 := Nat.cast_ne_zero.mpr ht.ne'
    have key : (l * 100 : ℚ) / t + 1/2 = ((200 * l + t : ℕ) : ℚ) / ((2 * t : ℕ) : ℚ) := by
      push_cast
      field_simp
      ring
    rw [key, Rat.floor_natCast_div_natCast]
    unfold uploadPercentage
    rw [Int.natCast_div]
  · intro t l1 l2 h
    unfold uploadPercentage
    exact Nat.div_le_div_right (by omega)
  · intro t ht
    unfold uploadPercentage
    have h1 : 200 * t + t = t + 2 * t * 100 := by ring
    rw [h1, Nat.add_mul_div_left _ _ (by omega : 0 < 2 * t), Nat.div_eq_of_lt (by omega)]

/-- Claim C6, witness: the amended theorem applied at total 3 bytes. -/
theorem c6_progress_rounding_witness :
    (uploadPercentage 1 3 : ℤ) = ⌊(1 * 100 : ℚ) / 3 + 1/2⌋
    ∧ uploadPercentage 1 3 ≤ uploadPercentage 2 3
    ∧ uploadPercentage 3 3 = 100 :=
  ⟨by
    have h := c6_progress_rounding.1 1 3 (by decide)
    push_cast at h ⊢
    convert h using 2,
   c6_progress_rounding.2.1 3 1 2 (by decide),
   c6_progress_rounding.2.2 3 (by decide)⟩

/-- Claim C7, counterexample: a file whose name contains no `.` is not
rejected unconditionally.  For the dotless name `wav`, `split('.').pop()`
returns the whole name, the computed extension is `.wav`, and validation
succeeds when `.wav` is in the supported list. -/
theorem c7_counterexample :
    '.' ∉ (['w', 'a', 'v'] : JsString)
    ∧ validateFile { name := ['w', 'a', 'v'], size := 0 } wavFormats = .ok := by
  decide

/-- Claim C7, amended: the extension checked is `'.'` prepended to the
lower-cased last `'.'`-separated segment of the name — for a name with a dot
that is the substring after the final dot, but for a dotless name it is the
whole name dot-prefixed, so such a file passes the format check exactly when
that string happens to be in the supported list. -/
theorem c7_extension_extraction :
    (∀ name : JsString, '.' ∉ name → extOf name = '.' :: name.map Char.toLower)
    ∧ (∀ pre post : JsString, '.' ∉ post →
        extOf (pre ++ '.' :: post) = '.' :: post.map Char.toLower)
    ∧ (∀ (name : JsString) (formats : SupportedFormats) (size : Nat),
        '.' ∉ name → size ≤ maxFileSize →
        (validateFile { name := name, size := size } formats = .ok ↔
          ('.' :: name.map Char.toLower) ∈ formats.audio ++ formats.image)) := by
  refine ⟨extOf_no_dot, extOf_after_final_dot, ?_⟩
  intro name formats size hdot hsize
  unfold validateFile
  rw [extOf_no_dot name hdot]
  by_cases hmem : ('.' :: name.map Char.toLower) ∈ formats.audio ++ formats.image
  · simp [hmem, Nat.not_lt.mpr hsize]
  · simp [hmem]

/-- Claim C7, witness: the amended theorem applied to the dotless name `wav`,
to the name `foo.WAV`, and to validation of `wav` against a `.wav` list. -/
theorem c7_extension_extraction_witness :
    extOf ['w', 'a', 'v'] = '.' :: (['w', 'a', 'v'] : JsString).map Char.toLower
    ∧ extOf (['f', 'o', 'o'] ++ '.' :: ['W', 'A', 'V']) =
        '.' :: (['W', 'A', 'V'] : JsString).map Char.toLower
    ∧ (validateFile { name := ['w', 'a', 'v'], size := 0 } wavFormats = .ok ↔
        ('.' :: (['w', 'a', 'v'] : JsString).map Char.toLower) ∈
          wavFormats.audio ++ wavFormats.image) :=
  ⟨c7_extension_extraction.1 ['w', 'a', 'v'] (by decide),
   c7_extension_extraction.2.1 ['f', 'o', 'o'] ['W', 'A', 'V'] (by decide),
   c7_extension_extraction.2.2 ['w', 'a', 'v'] wavFormats 0 (by decide) (by decide)⟩

/-- Claim C8, counterexample: `cancel()` after an analysis already succeeded
is not a no-op.  The abort controller reference is still non-null, so the
guard passes and the handler overwrites the session's error message even
though nothing is in flight. -/
theorem c8_counterexample :
    (cancelAnalysis (requestSucceed (analyzeStart initialHook 7) 0 42)).st.error
      = some "Analysis cancelled by user"
    ∧ (requestSucceed (analyzeStart initialHook 7) 0 42).st.error = none
    ∧ (requestSucceed (analyzeStart initialHook 7) 0 42).st.isAnalyzing = false
    ∧ (requestSucceed (analyzeStart initialHook 7) 0 42).st.result = some 42 :=
  ⟨rfl, rfl, rfl, rfl⟩

/-- Claim C8, amended: `cancel()` is a no-op exactly when no abort controller
has ever been created (null ref, e.g. the idle state of a fresh controller);
whenever a controller reference exists — including after a completed
analysis — it aborts that controller and sets `isAnalyzing := false` with the
fixed message, leaving result and progress unchanged. -/
theorem c8_cancel_guarded_by_ref :
    (∀ h : HookState, h.abortCtrl = none → cancelAnalysis h = h)
    ∧ (∀ (h : HookState) (c : Nat), h.abortCtrl = some c →
        (cancelAnalysis h).aborted = c :: h.aborted
        ∧ (cancelAnalysis h).st.error = some "Analysis cancelled by user"
        ∧ (cancelAnalysis h).st.isAnalyzing = false
        ∧ (cancelAnalysis h).st.result = h.st.result
        ∧ (cancelAnalysis h).st.progress = h.st.progress) := by
  constructor
  · intro h hh
    unfold cancelAnalysis
    rw [hh]
  · intro h c hh
    unfold cancelAnalysis
    rw [hh]
    exact ⟨rfl, rfl, rfl, rfl, rfl⟩

/-- Claim C8, witness: the amended theorem applied to the fresh idle hook
(no-op) and to a hook whose controller 0 exists. -/
theorem c8_cancel_guarded_by_ref_witness :
    cancelAnalysis initialHook = initialHook
    ∧ (cancelAnalysis (analyzeStart initialHook 7)).aborted
        = 0 :: (analyzeStart initialHook 7).aborted :=
  ⟨c8_cancel_guarded_by_ref.1 initialHook rfl,
   (c8_cancel_guarded_by_ref.2 (analyzeStart initialHook 7) 0 rfl).1⟩

/-- Claim C9: `set` merges the update over the current config — fields absent
from the update keep their current values — persists the merged result, and a
fresh initialization from the persisted store returns exactly the merged
config; concretely, `set` of threshold 0.7 over the defaults reloads as
threshold 0.7 with the other fields at their defaults. -/
theorem c9_config_round_trip :
    (∀ (config : AudioCalibrationConfig) (u : ConfigUpdate),
      loadConfig (setConfig config u).2 = (setConfig config u).1)
    ∧ (∀ config : AudioCalibrationConfig, mergeConfig config {} = config)
    ∧ (∀ (config : AudioCalibrationConfig) (u : ConfigUpdate),
        u.flip_output_interpretation = none →
        (mergeConfig config u).flip_output_interpretation = config.flip_output_interpretation)
    ∧ (∀ (config : AudioCalibrationConfig) (u : ConfigUpdate), u.threshold = none →
        (mergeConfig config u).threshold = config.threshold)
    ∧ (∀ (config : AudioCalibrationConfig) (u : ConfigUpdate), u.uncertainty_range = none →
        (mergeConfig config u).uncertainty_range = config.uncertainty_range)
    ∧ loadConfig (setConfig defaultAudioConfig { threshold := some (7/10) }).2 =
        { flip_output_interpretation := false, threshold := 7/10, uncertainty_range := 1/10 } := by
  refine ⟨fun config u => rfl, fun config => rfl, ?_, ?_, ?_, rfl⟩
  all_goals intro config u hu
  all_goals simp [mergeConfig, hu]

/-- Claim C9, witness: the round-trip theorem applied at the defaults with a
threshold-only update. -/
theorem c9_config_round_trip_witness :
    loadConfig (setConfig defaultAudioConfig { threshold := some (7/10) }).2
      = (setConfig defaultAudioConfig { threshold := some (7/10) }).1
    ∧ (mergeConfig defaultAudioConfig { threshold := some (7/10) }).uncertainty_range
        = defaultAudioConfig.uncertainty_range :=
  ⟨c9_config_round_trip.1 defaultAudioConfig { threshold := some (7/10) },
   c9_config_round_trip.2.2.2.2.1 defaultAudioConfig { threshold := some (7/10) } rfl⟩

/-- Claim C10: the per-endpoint retry counter never decreases on a failure
(only the success interceptor deletes it, resetting the count to 0); after a
path exhausts its 3 retries the counter stays at `MAX_RETRIES`, so the next
failing call to the same path makes a single attempt — zero retries — and is
surfaced immediately. -/
theorem c10_retry_counter_persistence :
    (∀ (m : RetryMap) (e : AxiosErrorModel),
      lookupRetry m e.url ≤ lookupRetry (handleResponseError m e).2 e.url)
    ∧ (∀ (m : RetryMap) (url : String), lookupRetry (onSuccess m url) url = 0)
    ∧ lookupRetry (runAlways503 10 []).map "/detect" = MAX_RETRIES
    ∧ (runAlways503 10 (runAlways503 10 []).map).attempts = 1
    ∧ (runAlways503 10 (runAlways503 10 []).map).delays = []
    ∧ (runAlways503 10 (runAlways503 10 []).map).terminal = .throwFormatted := by
  refine ⟨lookupRetry_le_handleResponseError, ?_, by decide, by decide, by decide, by decide⟩
  intro m url
  have hnone : List.find? (fun a => false) m = none := by
    induction m with
    | nil => rfl
    | cons p rest ih => simp [List.find?, ih]
  simp [onSuccess, eraseRetry, lookupRetry, List.find?_filter, hnone]

end DeepGuard
